import Mathlib

/-!
Verification development for the tally module of the KDSource repository
(`python/ksource/tally.py`).

The module is shallowly embedded here:

* text files are `List String` (their lines, without the trailing newline;
  where the Python code tests `sub in line` on a line that still carries its
  newline, the embedding tests containment in `line ++ "\n"`);
* `numpy` floating-point numbers are modelled as rationals `ℚ` (exact
  arithmetic; the floating-point rounding itself is not modelled), and
  `np.double`/`int` string parsing is modelled for finite decimal literals;
* fallible code returns `Except String`, carrying the kind of Python
  exception raised ("ValueError: ...", "IndexError: ...", ...);
* `print` notifications are collected in a `List String` log;
* randomness (`np.random.shuffle`, `np.random.rand`) and the irrational
  functions (`np.cos`, `np.sin`, `np.sqrt` inside the sampler) are supplied
  as explicit parameters of the sampler;
* the external particle-list writer (`savessv`/`appendssv`/`convert2mcpl`
  from the `plist` module, which is not among the sources) is modelled from
  the spec as a pure accumulator of the header and appended batches.
-/

/- ## String utilities (Python `in`, `str.split`, `str.split(',')`) -/

/-- Boolean test that the first list is an initial segment of the second. -/
def listStarts : List Char → List Char → Bool
  | [], _ => true
  | _ :: _, [] => false
  | a :: as, b :: bs => a == b && listStarts as bs

/-- Python substring containment `sub in s`. -/
def strContains (s sub : String) : Bool :=
  (List.range (s.length + 1)).any (fun i => listStarts sub.toList (s.toList.drop i))

/-- Python `sub in line` where `line` is a line read by `for line in file`,
which still carries its trailing newline: the stored line (without newline)
is re-extended before the containment test. -/
def lineIn (sub line : String) : Bool :=
  strContains (line ++ "\n") sub

/-- Helper for `pySplit`: whitespace tokenisation of a character list, with
`cur` the (reversed) token currently being accumulated. -/
def wsSplitAux : List Char → List Char → List String
  | [], cur => if cur.isEmpty then [] else [String.mk cur.reverse]
  | c :: cs, cur =>
    if c.isWhitespace then
      (if cur.isEmpty then [] else [String.mk cur.reverse]) ++ wsSplitAux cs []
    else wsSplitAux cs (c :: cur)

/-- Python `line.split()`: split on runs of whitespace, dropping empty
tokens (so the trailing newline of a line never produces a token). -/
def pySplit (s : String) : List String := wsSplitAux s.toList []

/-- Helper for `pySplitComma`. -/
def commaSplitAux : List Char → List Char → List String
  | [], cur => [String.mk cur.reverse]
  | c :: cs, cur =>
    if c = ',' then String.mk cur.reverse :: commaSplitAux cs []
    else commaSplitAux cs (c :: cur)

/-- Python `line.split(sep=',')`: split on every comma, keeping empty
fields; the result is never the empty list. -/
def pySplitComma (s : String) : List String := commaSplitAux s.toList []

/- ## Numeric string parsing (`np.double`, `int`) -/

/-- Value of a digit string (most significant digit first). -/
def digitsVal (cs : List Char) : ℕ := cs.foldl (fun a c => a * 10 + (c.toNat - 48)) 0

/-- Surrounding-whitespace removal used by the numeric parsers. -/
def trimChars (cs : List Char) : List Char :=
  ((cs.dropWhile Char.isWhitespace).reverse.dropWhile Char.isWhitespace).reverse

/-- Exponent part of a decimal literal: optional sign, then at least one
digit, then nothing. -/
def pyExpPart (mant : ℚ) (cs : List Char) : Option ℚ :=
  let (neg, cs1) :=
    match cs with
    | '-' :: rest => (true, rest)
    | '+' :: rest => (false, rest)
    | _ => (false, cs)
  let ed := cs1.takeWhile Char.isDigit
  let rest := cs1.dropWhile Char.isDigit
  if ed.isEmpty ∨ rest ≠ [] then none
  else some (if neg then mant / (10 : ℚ) ^ digitsVal ed else mant * (10 : ℚ) ^ digitsVal ed)

/-- Core of `pyFloat` on a trimmed character list: optional sign, digits
with an optional decimal point (at least one digit overall), optional
exponent. -/
def pyFloatCore (cs : List Char) : Option ℚ :=
  let (sgn, cs0) :=
    match cs with
    | '-' :: rest => ((-1 : ℚ), rest)
    | '+' :: rest => ((1 : ℚ), rest)
    | _ => ((1 : ℚ), cs)
  let intd := cs0.takeWhile Char.isDigit
  let cs1 := cs0.dropWhile Char.isDigit
  let (fracd, cs2) :=
    match cs1 with
    | '.' :: rest => (rest.takeWhile Char.isDigit, rest.dropWhile Char.isDigit)
    | _ => ([], cs1)
  if intd.isEmpty ∧ fracd.isEmpty then none
  else
    let mant : ℚ := sgn * ((digitsVal intd : ℚ) + (digitsVal fracd : ℚ) / (10 : ℚ) ^ fracd.length)
    match cs2 with
    | [] => some mant
    | 'e' :: rest => pyExpPart mant rest
    | 'E' :: rest => pyExpPart mant rest
    | _ => none

/-- Model of `np.double(s)` on a string: parse a finite decimal literal
(sign, digits, optional fraction, optional exponent), tolerating
surrounding whitespace as `np.double` does; `none` models the raised
`ValueError`. -/
def pyFloat (s : String) : Option ℚ := pyFloatCore (trimChars s.toList)

/-- Model of `int(s)`: optional sign then decimal digits only, tolerating
surrounding whitespace; `none` models the raised `ValueError`. -/
def pyInt (s : String) : Option ℤ :=
  let cs := trimChars s.toList
  let (sgn, ds) :=
    match cs with
    | '-' :: rest => ((-1 : ℤ), rest)
    | '+' :: rest => ((1 : ℤ), rest)
    | _ => ((1 : ℤ), cs)
  if ds.isEmpty then none
  else if ds.all Char.isDigit then some (sgn * (digitsVal ds : ℤ))
  else none

/- ## Spectrum loader (`read_spectrum`, tally.py lines 16-54) -/

/-- Body of the `for line in file` loop of `read_spectrum` (lines 41-47):
split the line on commas, append `double(line[0])/1000` to the energies and
then `double(line[2])` to the intensities, and on the first failure abandon
the rest of the line (`except: pass`) — an append already performed is kept. -/
def specLineStep (acc : List ℚ × List ℚ) (line : String) : List ℚ × List ℚ :=
  let fs := pySplitComma line
  match pyFloat (fs.getD 0 "") with
  | none => acc
  | some e =>
    let Es := acc.1 ++ [e / 1000]
    match fs.get? 2 with
    | none => (Es, acc.2)
    | some s2 =>
      match pyFloat s2 with
      | none => (Es, acc.2)
      | some w => (Es, acc.2 ++ [w])

/-- Model of `read_spectrum` (lines 16-54). A `none` spectrum is Python's
`spectrum=None`: both sequences stay empty and the final length check
passes trivially. -/
def readSpectrum (spectrum : Option (List String)) : Except String (List ℚ × List ℚ) :=
  match spectrum with
  | none => .ok ([], [])
  | some lines =>
    let Esws := lines.foldl specLineStep ([], [])
    if Esws.1.length = 0 then .error "Empty decay spectrum."
    else if Esws.1.length ≠ Esws.2.length then .error "Invalid decay spectrum format."
    else .ok Esws

/- ## Tally parser scanning phases (`T4Tally.__init__`, tally.py lines 100-180) -/

/-- Cursor into the output file: the current value of the Python variable
`line` (the last line read) and the lines not yet consumed by the file
iterator. -/
structure Cursor where
  line : String
  rest : List String
deriving DecidableEq, Repr

/-- Lines 102-106: scan for a line containing "SCORE"; the loop's `else`
clause raises when the file is exhausted first. -/
def searchScoreBlock : String → List String → Except String Cursor
  | _, [] => .error "No SCORE block in outputfile."
  | _, l :: ls => if lineIn "SCORE" l then .ok ⟨l, ls⟩ else searchScoreBlock l ls

/-- Line 109: the tally-definition match condition,
`tallyname+" " in line or tallyname+"\t" in line or tallyname+"\n" in line`. -/
def nameMatch (name line : String) : Bool :=
  lineIn (name ++ " ") line || lineIn (name ++ "\t") line || lineIn (name ++ "\n") line

/-- Lines 107-112: scan for the tally definition, raising when "END_SCORE"
is seen first. The loop has no `else` clause, so an exhausted file ends the
loop silently with `line` left at its last value. -/
def searchTallyDef (name : String) : String → List String → Except String Cursor
  | cur, [] => .ok ⟨cur, []⟩
  | _, l :: ls =>
    if nameMatch name l then .ok ⟨l, ls⟩
    else if lineIn "END_SCORE" l then .error ("Tally " ++ name ++ " definition not found.")
    else searchTallyDef name l ls

/-- Lines 113-118: scan for "EXTENDED_MESH", raising when "NAME" or
"END_SCORE" is seen first. No `else` clause: end-of-file ends the loop
silently. -/
def searchMesh : String → List String → Except String Cursor
  | cur, [] => .ok ⟨cur, []⟩
  | _, l :: ls =>
    if lineIn "EXTENDED_MESH" l then .ok ⟨l, ls⟩
    else if lineIn "NAME" l || lineIn "END_SCORE" l then .error "EXTENDED_MESH not found."
    else searchMesh l ls

/-- First index of `x` in `xs` (helper for `pyIndexOf`). -/
def tokenIdx : List String → String → ℕ → Option ℕ
  | [], _, _ => none
  | t :: ts, x, n => if t = x then some n else tokenIdx ts x (n + 1)

/-- Python `xs.index(x)`: the first index of an exact occurrence, raising
`ValueError` when absent. -/
def pyIndexOf (xs : List String) (x : String) : Except String ℕ :=
  match tokenIdx xs x 0 with
  | some i => .ok i
  | none => .error ("ValueError: " ++ x ++ " is not in list")

/-- Lines 123-126: accumulate the whitespace tokens of further lines until
a line containing `marker` is reached; no `else` clause, so end-of-file
ends the loop silently with the accumulated tokens kept. -/
def accumUntil (marker : String) : String → List String → List String → List String × Cursor
  | cur, [], acc => (acc, ⟨cur, []⟩)
  | _, l :: ls, acc =>
    if lineIn marker l then (acc, ⟨l, ls⟩)
    else accumUntil marker l ls (acc ++ pySplit l)

/-- Lines 146-154: for one line of the FRAME block, the earliest token
index among the markers "NAME", "END_SCORE", "//", "/*" that occur in the
line as substrings (`search in line`), each located with
`line.split().index(search)` — which itself raises `ValueError` when the
marker occurs only inside a longer token. -/
def cutStep (l : String) (acc : Except String (Option ℕ)) (m : String) : Except String (Option ℕ) := do
  let a ← acc
  if lineIn m l then
    let i ← pyIndexOf (pySplit l) m
    match a with
    | none => pure (some i)
    | some j => pure (some (if i < j then i else j))
  else pure a

/-- Earliest cut marker of a FRAME-block line (lines 146-154). -/
def frameCutIdx (l : String) : Except String (Option ℕ) :=
  (["NAME", "END_SCORE", "//", "/*"] : List String).foldl (cutStep l) (.ok none)

/-- Lines 145-157: accumulate FRAME-block tokens until a line carries one
of the cut markers, keeping the tokens before the earliest marker of that
line. No `else` clause: at end-of-file, line 157 still runs with the stale
`idx` from line 143 (the index of "CARTESIAN"), re-taking that many tokens
of the last line. -/
def readFrameBuf (cartIdx : ℕ) : String → List String → List String → Except String (List String × Cursor)
  | cur, [], acc => .ok (acc ++ (pySplit cur).take cartIdx, ⟨cur, []⟩)
  | _, l :: ls, acc =>
    match frameCutIdx l with
    | .error e => .error e
    | .ok none => readFrameBuf cartIdx l ls (acc ++ pySplit l)
    | .ok (some i) => .ok (acc ++ (pySplit l).take i, ⟨l, ls⟩)

/-- Lines 167-171: scan for `"SCORE NAME : " ++ name`; the loop's `else`
clause raises at end-of-file. -/
def searchResults (name : String) : String → List String → Except String Cursor
  | _, [] => .error ("Tally " ++ name ++ " results not found.")
  | _, l :: ls =>
    if lineIn ("SCORE NAME : " ++ name) l then .ok ⟨l, ls⟩
    else searchResults name l ls

/-- Lines 172-174: scan for "Energy range". No `else` clause and no raise:
end-of-file ends the loop silently, so this phase is total. -/
def searchEnergyRange : String → List String → Cursor
  | cur, [] => ⟨cur, []⟩
  | _, l :: ls => if lineIn "Energy range" l then ⟨l, ls⟩ else searchEnergyRange l ls

/-- Python list indexing `xs[i]` on a token's parse, with `none` standing
for a missing index: `IndexError` when out of range, `ValueError` when the
token does not parse as a float. -/
def pyDoubleAt : Option String → Except String ℚ
  | none => .error "IndexError: list index out of range"
  | some s =>
    match pyFloat s with
    | some q => .ok q
    | none => .error ("ValueError: could not convert string to float: " ++ s)

/-- Lines 175-180: read result rows. Each line is whitespace-split; an
empty token list ends the loop; otherwise tokens 1 and 2 are parsed and
appended to the value and error sequences. Running out of lines also ends
the loop silently. -/
def readRows : List String → Except String (List ℚ × List ℚ)
  | [] => .ok ([], [])
  | l :: ls =>
    let toks := pySplit l
    if toks.length = 0 then .ok ([], [])
    else
      match pyDoubleAt (toks.get? 1) with
      | .error e => .error e
      | .ok v =>
        match pyDoubleAt (toks.get? 2) with
        | .error e => .error e
        | .ok w =>
          match readRows ls with
          | .error e => .error e
          | .ok (I, err) => .ok (v :: I, w :: err)

/- ## Arrays and the tail of `__init__` (tally.py lines 119-138, 158-163, 181-186) -/

/-- Minimal model of a numpy array: a shape and the flat data in C order. -/
structure NdArray where
  shape : List ℕ
  data : List ℚ
deriving DecidableEq, Repr

/-- Model of `np.reshape(data, dims)` for the dimension lists produced by
`int` parsing: it succeeds exactly when every dimension is nonnegative and
their product equals the data length (numpy's `-1` inference convention is
not modelled; no claim exercises it). -/
def npReshape (data : List ℚ) (dims : List ℤ) : Except String NdArray :=
  if (∀ d ∈ dims, 0 ≤ d) ∧ dims.prod = (data.length : ℤ) then
    .ok ⟨dims.map Int.toNat, data⟩
  else .error "ValueError: cannot reshape array"

/-- Elementwise division of an array by a scalar. -/
def ndDiv (a : NdArray) (v : ℚ) : NdArray := ⟨a.shape, a.data.map (fun x => x / v)⟩

/-- Model of `np.linspace(a, b, num)` (uniform grid, endpoints included);
a negative sample count raises. -/
def npLinspace (a b : ℚ) (num : ℤ) : Except String (List ℚ) :=
  if num < 0 then .error "ValueError: number of samples must be nonnegative"
  else .ok ((List.range num.toNat).map (fun j =>
    if num.toNat ≤ 1 then a else a + (b - a) * j / ((num.toNat : ℚ) - 1)))

/-- Python list indexing `xs[i]` on rationals, raising `IndexError` when
out of range. -/
def pyGetQ (xs : List ℚ) (i : ℕ) : Except String ℚ :=
  match xs.get? i with
  | some v => .ok v
  | none => .error "IndexError: list index out of range"

/-- Model of `np.double` applied to a list of token strings (lines
131-132, 160-163): parse each, raising on the first failure. -/
def parseDoubles : List String → Except String (List ℚ)
  | [] => .ok []
  | s :: ss =>
    match pyFloat s with
    | none => .error ("ValueError: could not convert string to float: " ++ s)
    | some q =>
      match parseDoubles ss with
      | .error e => .error e
      | .ok qs => .ok (q :: qs)

/-- Model of `list(map(int, ...))` (line 133): parse each token as an
integer, raising on the first failure. -/
def parseInts : List String → Except String (List ℤ)
  | [] => .ok []
  | s :: ss =>
    match pyInt s with
    | none => .error ("ValueError: invalid literal for int: " ++ s)
    | some q =>
      match parseInts ss with
      | .error e => .error e
      | .ok qs => .ok (q :: qs)

/-- Lines 181-186, the tail of `__init__`: compare the number of parsed
rows with the product of the cell counts and report the outcome on the
notification channel (the returned log), then reshape both sequences to the
cell-count shape and divide by the cell volume. The reshape itself raises
whenever the row count differs from the product. -/
def finishInit (name : String) (rawI rawErr : List ℚ) (Ns : List ℤ) (vcell : ℚ) :
    List String × Except String (NdArray × NdArray) :=
  let log :=
    if (rawI.length : ℤ) = Ns.prod then ["Tally " ++ name ++ " successfully read."]
    else ["Tally " ++ name ++ " reading incomplete."]
  (log,
    match npReshape rawI Ns with
    | .error e => .error e
    | .ok a =>
      match npReshape rawErr Ns with
      | .error e => .error e
      | .ok b => .ok (ndDiv a vcell, ndDiv b vcell))

/-- Everything `__init__` computes before its final reshape: the spectrum,
the mesh grids and cell volume, the frame, the cell counts and the raw
result rows. -/
structure ScanResult where
  Es : List ℚ
  Ews : List ℚ
  grids : List (List ℚ)
  vcell : ℚ
  origin : List ℚ
  dx1 : List ℚ
  dx2 : List ℚ
  dx3 : List ℚ
  Ns : List ℤ
  rawI : List ℚ
  rawErr : List ℚ
deriving Repr

/-- Lines 94 and 100-180 of `__init__`: the sequential single-pass scan.
The initial value of the loop variable `line` is the empty string (in
Python it is simply unbound until a loop first runs; no phase reads it
before a loop has run on the files this parser accepts). -/
def tallyScan (spectrum : Option (List String)) (lines : List String) (name : String) :
    Except String ScanResult := do
  let Esws ← readSpectrum spectrum
  let c1 ← searchScoreBlock "" lines
  let c2 ← searchTallyDef name c1.line c1.rest
  let c3 ← searchMesh c2.line c2.rest
  -- lines 119-130: EXTENDED_MESH parameters
  let toks := pySplit c3.line
  let i ← pyIndexOf toks "EXTENDED_MESH"
  let acc := accumUntil "FRAME" c3.line c3.rest []
  let toks4 := pySplit acc.2.line
  let j ← pyIndexOf toks4 "FRAME"
  let buf := toks.drop (i + 1) ++ acc.1 ++ toks4.take j
  if buf.length ≠ 10 then throw "Could not read EXTENDED_MESH."
  let mins ← parseDoubles ((buf.drop 1).take 3)
  let maxs ← parseDoubles ((buf.drop 4).take 3)
  let Ns ← parseInts ((buf.drop 7).take 3)
  let g1 ← npLinspace (mins.getD 0 0) (maxs.getD 0 0) (Ns.getD 0 0 + 1)
  let g2 ← npLinspace (mins.getD 1 0) (maxs.getD 1 0) (Ns.getD 1 0 + 1)
  let g3 ← npLinspace (mins.getD 2 0) (maxs.getD 2 0) (Ns.getD 2 0 + 1)
  let a1 ← pyGetQ g1 1
  let a0 ← pyGetQ g1 0
  let b1 ← pyGetQ g2 1
  let b0 ← pyGetQ g2 0
  let d1 ← pyGetQ g3 1
  let d0 ← pyGetQ g3 0
  let vcell := |(a1 - a0) * (b1 - b0) * (d1 - d0)|
  -- lines 140-163: FRAME CARTESIAN
  if ¬ (lineIn "FRAME CARTESIAN" acc.2.line = true) then throw "Tally must have FRAME CARTESIAN."
  let k ← pyIndexOf toks4 "CARTESIAN"
  let fb ← readFrameBuf k acc.2.line acc.2.rest (toks4.drop (k + 1))
  if fb.1.length ≠ 12 then throw "Could not read FRAME CARTESIAN."
  let origin ← parseDoubles (fb.1.take 3)
  let dx1 ← parseDoubles ((fb.1.drop 3).take 3)
  let dx2 ← parseDoubles ((fb.1.drop 6).take 3)
  let dx3 ← parseDoubles ((fb.1.drop 9).take 3)
  -- lines 164-180: results
  let c6 ← searchResults name fb.2.line fb.2.rest
  let c7 := searchEnergyRange c6.line c6.rest
  let rows ← readRows c7.rest
  return { Es := Esws.1, Ews := Esws.2, grids := [g1, g2, g3], vcell := vcell,
           origin := origin, dx1 := dx1, dx2 := dx2, dx3 := dx3,
           Ns := Ns, rawI := rows.1, rawErr := rows.2 }

/-- Attributes of a constructed `T4Tally` object, mirroring the `self.…`
assignments of `__init__` (lines 89-98, 137-138, 160-163, 185-186). -/
structure TallyData where
  J : ℚ
  folder : String
  outputfile : String
  tallyname : String
  Es : List ℚ
  Ews : List ℚ
  geomplot : Option Unit
  grids : List (List ℚ)
  vcell : ℚ
  origin : List ℚ
  dx1 : List ℚ
  dx2 : List ℚ
  dx3 : List ℚ
  I : NdArray
  err : NdArray
deriving Repr

/-- Model of `T4Tally.__init__` (lines 61-186) on the already-read lines of
the output file (and spectrum file): the notification log produced by the
final `print`, and either the constructed object or the exception raised.
`os.path.dirname` and the geometry-image load are external and passed
through. -/
def tallyInit (spectrum : Option (List String)) (lines : List String) (name : String)
    (J : ℚ) (folder : String) (geomplot : Option Unit) :
    List String × Except String TallyData :=
  match tallyScan spectrum lines name with
  | .error e => ([], .error e)
  | .ok r =>
    let fin := finishInit name r.rawI r.rawErr r.Ns r.vcell
    (fin.1,
      match fin.2 with
      | .error e => .error e
      | .ok ab =>
        .ok { J := J, folder := folder, outputfile := "", tallyname := name,
              Es := r.Es, Ews := r.Ews, geomplot := geomplot, grids := r.grids,
              vcell := r.vcell, origin := r.origin, dx1 := r.dx1, dx2 := r.dx2,
              dx3 := r.dx3, I := ab.1, err := ab.2 })

/- ## Particle sampler (`T4Tally.save_tracks`, tally.py lines 188-244) -/

/-- Attribute names assigned on a `T4Tally` instance by `__init__` (the
complete list of `self.… = …` targets, lines 89-98, 137-138, 160-163,
185-186). Python attribute lookup on the instance succeeds exactly for
these names. -/
def tallyAttrNames : List String :=
  ["J", "folder", "outputfile", "tallyname", "Es", "Ews", "geomplot",
   "grids", "vcell", "origin", "dx1", "dx2", "dx3", "I", "err"]

/-- Whether `self.a` resolves on a constructed `T4Tally`. -/
def getattrOk (a : String) : Bool := tallyAttrNames.contains a

/-- Midpoints of adjacent grid boundaries, `(grid[:-1]+grid[1:])/2`
(line 215). -/
def midGrid (g : List ℚ) : List ℚ :=
  List.zipWith (fun a b => (a + b) / 2) g.dropLast g.tail

/-- Model of `np.tile(l, n)`. -/
def tileList (l : List ℚ) (n : ℕ) : List ℚ :=
  (List.range n).flatMap (fun _ => l)

/-- Mean of a list, `l.mean()` (with ℚ's division-by-zero convention on an
empty list; the sampler only divides by means of retained positive
weights). -/
def listMean (l : List ℚ) : ℚ := l.sum / l.length

/-- Environment of external effects used by `save_tracks`: the row shuffle
performed by `np.random.shuffle`, the per-pass per-particle uniform draws
behind `mus` and `phis`, the float trigonometric and square-root routines,
and the handle reported by the external `convert2mcpl`. -/
structure SaveEnv where
  shuffleRows : List (List ℚ) → List (List ℚ)
  mus : ℕ → ℕ → ℚ
  phis : ℕ → ℕ → ℚ
  npcos : ℚ → ℚ
  npsin : ℚ → ℚ
  npsqrt : ℚ → ℚ
  convertName : String → String

/-- Everything `save_tracks` hands to the external writer: the header call,
the appended batches of (7-component particle rows, weights), and the
handle returned by the converter. Modelled from the spec: the writer
(`savessv`/`appendssv`/`convert2mcpl` of the `plist` module) is not among
the sources; per the spec's writer contract it records a header once, then
appended batches, and the converter reports the final handle. -/
structure SaveResult where
  header : String × String
  batches : List (List (List ℚ) × List ℚ)
  mcplname : String

/-- Model of `T4Tally.save_tracks` (lines 188-244). The steps follow the
source order: spectrum-emptiness check (209), position list and positive
filter with mean-1 normalisation (215-220), particle rows with positions in
columns 1-3 and row shuffle (223-225), cyclic energy tiling (227-228), then
line 229 reads `self.E_ws` — an attribute `__init__` never assigns (it
assigns `self.Ews`, line 94), so the lookup raises `AttributeError`; the
remainder (normalised tiled intensities, header, per-energy batches of
rows, directions and weights, conversion) is the translation of lines
230-244 and is unreachable. -/
def save_tracks (t : TallyData) (env : SaveEnv) (filename0 : Option String) :
    Except String SaveResult :=
  if t.Es.length = 0 then .error "No decay spectrum."
  else
    let pt := "p"
    let filename :=
      match filename0 with
      | none => t.folder ++ "/" ++ t.tallyname ++ ".ssv"
      | some f => f
    match t.grids.map midGrid with
    | [m1, m2, m3] =>
      let poss := m1.flatMap (fun x => m2.flatMap (fun y => m3.map (fun z => [x, y, z])))
      let posws0 := t.I.data
      if poss.length = posws0.length then
        let kept := (poss.zip posws0).filter (fun p => decide (0 < p.2))
        let keptPos := kept.map (fun p => p.1)
        let keptWs := kept.map (fun p => p.2)
        let posws := keptWs.map (fun w => w / listMean keptWs)
        let N := keptPos.length
        let parts := env.shuffleRows (keptPos.map (fun p => [0] ++ p ++ [0, 0, 0]))
        let nloops := (N + t.Es.length - 1) / t.Es.length + 1
        let EsT := tileList t.Es nloops
        if getattrOk "E_ws" then
          let EwsT0 := tileList t.Ews nloops
          let EwsT := EwsT0.map (fun w => w / listMean EwsT0)
          let batches := (List.range t.Es.length).map (fun i =>
            ((List.range N).map (fun j =>
              let row := parts.getD j []
              let mu := env.mus i j
              let dxy := env.npsqrt (1 - mu ^ 2)
              let phi := env.phis i j
              [EsT.getD (i + j) 0] ++ (row.drop 1).take 3 ++
                [dxy * env.npcos phi, dxy * env.npsin phi, mu]),
             (List.range N).map (fun j => posws.getD j 0 * EwsT.getD (i + j) 0)))
          .ok { header := (pt, filename), batches := batches,
                mcplname := env.convertName filename }
        else .error "AttributeError: T4Tally object has no attribute E_ws"
      else .error "IndexError: boolean index did not match indexed array"
    | _ => .error "ValueError: cannot reshape meshgrid"

/- ## Visualizer (`T4Tally.plot` lines 246-314, `T4Tally.plot2D` lines 316-397) -/

/-- Shape component `arr.shape[var]` of the stored 3-D arrays, which have
shape `(n1, n2, n3)`. For the plot claims an array is its total indexing
function `ℕ → ℕ → ℕ → ℚ` together with this shape; only indices below the
shape correspond to real cells. -/
def shapeAt (n1 n2 n3 axis : ℕ) : ℕ :=
  if axis = 0 then n1 else if axis = 1 then n2 else n3

/-- Lines 279-280 (and 348-351): `vrs = [0,1,2]; vrs.remove(var)` — the two
non-plotted axes, in increasing order. -/
def otherAxes (axis : ℕ) : ℕ × ℕ :=
  if axis = 0 then (1, 2) else if axis = 1 then (0, 2) else (0, 1)

/-- The denominator of line 283, `err.shape[vrs[0]] * err.shape[vrs[1]]`. -/
def otherCount (n1 n2 n3 axis : ℕ) : ℕ :=
  shapeAt n1 n2 n3 (otherAxes axis).1 * shapeAt n1 n2 n3 (otherAxes axis).2

/-- Coordinate of a cell index triple along one axis. -/
def coordAt (axis : ℕ) (c : ℕ × ℕ × ℕ) : ℕ :=
  if axis = 0 then c.1 else if axis = 1 then c.2.1 else c.2.2

/-- Coordinates of a cell along the two non-plotted axes. -/
def otherPair (axis : ℕ) (c : ℕ × ℕ × ℕ) : ℕ × ℕ :=
  (coordAt (otherAxes axis).1 c, coordAt (otherAxes axis).2 c)

/-- Model of `np.sum(f, axis=tuple(vrs))` for a rank-3 array: the 1-D array
over axis `axis` obtained by summing out the other two axes. -/
def sumAxis2 (n1 n2 n3 : ℕ) (f : ℕ → ℕ → ℕ → ℚ) (axis i : ℕ) : ℚ :=
  if axis = 0 then ∑ j in Finset.range n2, ∑ k in Finset.range n3, f i j k
  else if axis = 1 then ∑ j in Finset.range n1, ∑ k in Finset.range n3, f j i k
  else ∑ j in Finset.range n1, ∑ k in Finset.range n2, f j k i

/-- Model of `np.sum(f, axis=var)` for a rank-3 array: the 2-D array over
the remaining axes in order. -/
def sumAxis1 (n1 n2 n3 : ℕ) (f : ℕ → ℕ → ℕ → ℚ) (axis i j : ℕ) : ℚ :=
  if axis = 0 then ∑ k in Finset.range n1, f k i j
  else if axis = 1 then ∑ k in Finset.range n2, f i k j
  else ∑ k in Finset.range n3, f i j k

/-- Line 282, `np.mean(I, axis=tuple(vrs))`. -/
def npMean2 (n1 n2 n3 : ℕ) (f : ℕ → ℕ → ℕ → ℚ) (axis i : ℕ) : ℚ :=
  sumAxis2 n1 n2 n3 f axis i / otherCount n1 n2 n3 axis

/-- Line 283 of `plot` with `cells=None`: the returned error array,
`np.sqrt(np.sum(err**2, axis=tuple(vrs))) / (err.shape[vrs[0]] * err.shape[vrs[1]])`. -/
noncomputable def plotErrsAvg (n1 n2 n3 : ℕ) (err : ℕ → ℕ → ℕ → ℚ) (axis i : ℕ) : ℝ :=
  Real.sqrt ((sumAxis2 n1 n2 n3 (fun x y z => err x y z ^ 2) axis i : ℚ) : ℝ) /
    (otherCount n1 n2 n3 axis : ℝ)

/-- Line 354 of `plot2D` with `cell=None`: the error array
`np.sqrt(np.sum(err**2, axis=var)) / err.shape[var]` (before the purely
presentational transpose/rot90 reindexing and the `J`/`fact` scaling of
lines 360-372). -/
noncomputable def plot2DErrsAvg (n1 n2 n3 : ℕ) (err : ℕ → ℕ → ℕ → ℚ) (axis i j : ℕ) : ℝ :=
  Real.sqrt ((sumAxis1 n1 n2 n3 (fun x y z => err x y z ^ 2) axis i j : ℚ) : ℝ) /
    (shapeAt n1 n2 n3 axis : ℝ)

/-- All cell index triples of a `(n1, n2, n3)` array. -/
def allCells (n1 n2 n3 : ℕ) : Finset (ℕ × ℕ × ℕ) :=
  Finset.range n1 ×ˢ Finset.range n2 ×ˢ Finset.range n3

/-- The cells that `plot` (with `cells=None`) collapses into output bin `i`
of axis `axis`: those whose `axis`-coordinate is `i`. This is the claim's
"cells averaged into that bin", phrased from the spec. -/
def binCells1 (n1 n2 n3 axis i : ℕ) : Finset (ℕ × ℕ × ℕ) :=
  (allCells n1 n2 n3).filter (fun c => coordAt axis c = i)

/-- The cells that `plot2D` (with `cell=None`) collapses into output bin
`(i, j)` when summing out axis `axis`. -/
def binCells2 (n1 n2 n3 axis i j : ℕ) : Finset (ℕ × ℕ × ℕ) :=
  (allCells n1 n2 n3).filter (fun c => otherPair axis c = (i, j))

/-- Cell coordinates of the 1-D slice element `i` selected by `plot` when
`cells = (c₁, c₂)` fixes the two non-plotted axes (lines 285-287). -/
def sliceAt (axis : ℕ) (c : ℕ × ℕ) (i : ℕ) : ℕ × ℕ × ℕ :=
  if axis = 0 then (i, c.1, c.2) else if axis = 1 then (c.1, i, c.2) else (c.1, c.2, i)

/-- Membership of a cell in that slice (the numpy view `I[tuple(slc)]`). -/
def inSliceB (axis : ℕ) (c : ℕ × ℕ) (x y z : ℕ) : Bool :=
  decide (otherPair axis (x, y, z) = c)

/-- Sum of the slice values, `np.sum(scores)` on the selected-cells branch
(line 291). -/
def sliceSum (n1 n2 n3 : ℕ) (f : ℕ → ℕ → ℕ → ℚ) (axis : ℕ) (c : ℕ × ℕ) : ℚ :=
  ∑ i in Finset.range (shapeAt n1 n2 n3 axis),
    f (sliceAt axis c i).1 (sliceAt axis c i).2.1 (sliceAt axis c i).2.2

/-- State of the tally's arrays after a call to `plot`, plus whether a
figure was produced (`false` models the `return [None, …]` of the
null-region branch). -/
structure PlotEffect where
  newI : ℕ → ℕ → ℕ → ℚ
  newErr : ℕ → ℕ → ℕ → ℚ
  fig : Bool

/-- Model of the array effects of `T4Tally.plot` (lines 275-296; the
remaining lines only draw). With `cells=None`, `np.mean` and
`np.sqrt(np.sum(...))` build fresh arrays, so `scores *= J` touches copies
and the stored arrays are unchanged. With `cells` given, basic slicing
`self.I[tuple(slc)]` yields a numpy view, so `scores *= self.J` (line 289)
and `errs *= self.J` (line 290) scale the selected cells of the stored
arrays in place; if the slice then sums to zero the call returns early with
that mutation done, and otherwise a given `fact` (lines 294-296) scales the
same cells in place again. -/
def plotRun (n1 n2 n3 : ℕ) (I err : ℕ → ℕ → ℕ → ℚ) (axis : ℕ)
    (cells : Option (ℕ × ℕ)) (J : ℚ) (fact : Option ℚ) : PlotEffect :=
  match cells with
  | none =>
    { newI := I, newErr := err,
      fig := ¬ (∑ i in Finset.range (shapeAt n1 n2 n3 axis),
        J * npMean2 n1 n2 n3 I axis i) = 0 }
  | some c =>
    let I1 := fun x y z => if inSliceB axis c x y z then J * I x y z else I x y z
    let err1 := fun x y z => if inSliceB axis c x y z then J * err x y z else err x y z
    if sliceSum n1 n2 n3 I1 axis c = 0 then
      { newI := I1, newErr := err1, fig := false }
    else
      match fact with
      | none => { newI := I1, newErr := err1, fig := true }
      | some f =>
        { newI := fun x y z => if inSliceB axis c x y z then f * I1 x y z else I1 x y z,
          newErr := fun x y z => if inSliceB axis c x y z then f * err1 x y z else err1 x y z,
          fig := true }

/- ## Concrete inputs used by the counterexamples and failing-input runs -/

/-- Output file with a well-formed MYTALLY block of cell counts 2×1×1 but
only three result rows (the mesh product is 2). -/
def c3File : List String :=
  ["SCORE",
   "  MYTALLY  ",
   "EXTENDED_MESH WINDOW 0 0 0 2 1 1 2 1 1",
   "FRAME CARTESIAN 0 0 0 1 0 0 0 1 0 0 0 1",
   "NAME dummy",
   "SCORE NAME : MYTALLY",
   "Energy range blah",
   "0 1.0 0.5",
   "1 2.0 0.5",
   "2 3.0 0.5",
   ""]

/-- Output file holding a SCORE block in which the requested tally name
never occurs and no END_SCORE marker follows: the tally-name search runs
off the end of the file. -/
def c7File : List String := ["SCORE", "foo"]

/-- Trivial sampler environment: identity shuffle, constant draws, and a
converter reporting `filename ++ ".mcpl"`. -/
def envTriv : SaveEnv :=
  { shuffleRows := id, mus := fun _ _ => 0, phis := fun _ _ => 0,
    npcos := fun _ => 1, npsin := fun _ => 0, npsqrt := fun _ => 1,
    convertName := fun s => s ++ ".mcpl" }

/-- A 1×1×1 tally with one strictly positive cell and a one-line decay
spectrum — a minimal input satisfying the sampler claims' preconditions. -/
def tallyC1 : TallyData :=
  { J := 1, folder := ".", outputfile := "out", tallyname := "ACT",
    Es := [1], Ews := [1], geomplot := none,
    grids := [[0, 1], [0, 1], [0, 1]], vcell := 1,
    origin := [0, 0, 0], dx1 := [1, 0, 0], dx2 := [0, 1, 0], dx3 := [0, 0, 1],
    I := ⟨[1, 1, 1], [5]⟩, err := ⟨[1, 1, 1], [0]⟩ }

/-- A 2×1×1 tally with two positive cells and a two-line spectrum. -/
def tallyC2 : TallyData :=
  { J := 1, folder := ".", outputfile := "out", tallyname := "ACT2",
    Es := [1, 2], Ews := [3, 7], geomplot := none,
    grids := [[0, 1, 2], [0, 1], [0, 1]], vcell := 1,
    origin := [0, 0, 0], dx1 := [1, 0, 0], dx2 := [0, 1, 0], dx3 := [0, 0, 1],
    I := ⟨[2, 1, 1], [5, 3]⟩, err := ⟨[2, 1, 1], [0, 0]⟩ }

/-- Constant 1×1×1 value array used by the plot-mutation run. -/
def IC4 : ℕ → ℕ → ℕ → ℚ := fun _ _ _ => 3

/- ## Helper lemmas -/

/-- Sum of a list after elementwise division by a scalar. -/
theorem listSumMapDiv (l : List ℚ) (v : ℚ) : (l.map (fun x => x / v)).sum = l.sum / v := by
  induction l with
  | nil => simp
  | cons a as ih => simp [ih, add_div]

/-- Reflexivity of `listStarts`. -/
theorem listStarts_self (l : List Char) : listStarts l l = true := by
  induction l with
  | nil => rfl
  | cons a as ih => simp [listStarts, ih]

/-- A list is an initial segment of itself extended on the right. -/
theorem listStarts_self_append (l r : List Char) : listStarts l (l ++ r) = true := by
  induction l with
  | nil => rfl
  | cons a as ih => simp [listStarts, ih]

/-- A string contains its own terminal segment. -/
theorem strContains_append_right (pre sub : String) : strContains (pre ++ sub) sub = true := by
  have hdata : (pre ++ sub).toList = pre.toList ++ sub.toList := by
    show (pre ++ sub).data = pre.data ++ sub.data
    rw [String.data_append]
  unfold strContains
  rw [List.any_eq_true]
  refine ⟨pre.length, List.mem_range.mpr ?_, ?_⟩
  · have h : (pre ++ sub).length = pre.length + sub.length := by
      show (pre ++ sub).toList.length = pre.toList.length + sub.toList.length
      rw [hdata, List.length_append]
    omega
  · rw [hdata]
    have hl : pre.length = pre.toList.length := rfl
    rw [hl, List.drop_left]
    exact listStarts_self sub.toList

/-- A string contains any middle segment. -/
theorem strContains_mid (pre sub suf : String) : strContains (pre ++ (sub ++ suf)) sub = true := by
  have hdata : (pre ++ (sub ++ suf)).toList = pre.toList ++ (sub.toList ++ suf.toList) := by
    show (pre ++ (sub ++ suf)).data = pre.data ++ (sub.data ++ suf.data)
    rw [String.data_append, String.data_append]
  unfold strContains
  rw [List.any_eq_true]
  refine ⟨pre.length, List.mem_range.mpr ?_, ?_⟩
  · have h : (pre ++ (sub ++ suf)).length = pre.length + (sub.length + suf.length) := by
      show (pre ++ (sub ++ suf)).toList.length = pre.toList.length + (sub.toList.length + suf.toList.length)
      rw [hdata, List.length_append, List.length_append]
    omega
  · rw [hdata]
    have hl : pre.length = pre.toList.length := rfl
    rw [hl, List.drop_left]
    exact listStarts_self_append sub.toList suf.toList

/-- Characterisation of `listStarts`: the second list extends the first. -/
theorem listStarts_iff (l r : List Char) : listStarts l r = true ↔ ∃ t, r = l ++ t := by
  induction l generalizing r with
  | nil => simp [listStarts]
  | cons a as ih =>
    cases r with
    | nil => simp [listStarts]
    | cons b bs =>
      simp only [listStarts, Bool.and_eq_true, beq_iff_eq, ih, List.cons_append,
        List.cons.injEq]
      constructor
      · rintro ⟨rfl, t, rfl⟩
        exact ⟨t, rfl, rfl⟩
      · rintro ⟨t, rfl, rfl⟩
        exact ⟨rfl, t, rfl⟩

/-- Characterisation of Python substring containment: `sub in s` holds
exactly when `s` decomposes around an occurrence of `sub`. -/
theorem strContains_iff (s sub : String) :
    strContains s sub = true ↔ ∃ pre post : String, s = pre ++ sub ++ post := by
  unfold strContains
  rw [List.any_eq_true]
  constructor
  · rintro ⟨i, -, hstart⟩
    rw [listStarts_iff] at hstart
    obtain ⟨t, ht⟩ := hstart
    refine ⟨⟨s.data.take i⟩, ⟨t⟩, ?_⟩
    have hs : s.data = (s.data.take i ++ sub.data) ++ t := by
      conv_lhs => rw [← List.take_append_drop i s.data]
      have ht2 : s.data.drop i = sub.data ++ t := ht
      rw [ht2, List.append_assoc]
    have h2 : (⟨s.data.take i⟩ : String) ++ sub ++ (⟨t⟩ : String) =
        ⟨(s.data.take i ++ sub.data) ++ t⟩ := by
      cases sub
      rfl
    rw [h2]
    exact congrArg String.mk hs
  · rintro ⟨pre, post, rfl⟩
    have hdata : (pre ++ sub ++ post).toList = pre.toList ++ (sub.toList ++ post.toList) := by
      show (pre ++ sub ++ post).data = pre.data ++ (sub.data ++ post.data)
      rw [String.data_append, String.data_append, List.append_assoc]
    refine ⟨pre.length, List.mem_range.mpr ?_, ?_⟩
    · have hlen : (pre ++ sub ++ post).length =
          pre.length + (sub.length + post.length) := by
        show (pre ++ sub ++ post).toList.length =
          pre.toList.length + (sub.toList.length + post.toList.length)
        rw [hdata, List.length_append, List.length_append]
      omega
    · rw [listStarts_iff]
      refine ⟨post.toList, ?_⟩
      rw [hdata]
      have hl : pre.length = pre.toList.length := rfl
      rw [hl, List.drop_left]

/- ## C1, C2: the sampler (code bug) -/

/-- C1: at a tally with one strictly positive cell and a nonempty decay
spectrum, `save_tracks` does not complete: the run raises `AttributeError`
at line 229 (`self.E_ws` was never assigned — `__init__` assigns
`self.Ews`), so no particle records reach the external writer and no
converter handle is returned. -/
theorem save_tracks_attr_error_on_positive_tally :
    (tallyC1.I.data.filter (fun w => decide (0 < w))).length = 1 ∧
    tallyC1.Es.length = 1 ∧
    save_tracks tallyC1 envTriv none =
      .error "AttributeError: T4Tally object has no attribute E_ws" :=
  ⟨by decide, rfl, rfl⟩

/-- C2: at a tally with two positive cells and a two-line spectrum,
`save_tracks` raises `AttributeError` before the header or any batch is
handed to the writer, so no particle (and hence no weight pairing) is ever
emitted. -/
theorem save_tracks_no_particles_emitted :
    (tallyC2.I.data.filter (fun w => decide (0 < w))).length = 2 ∧
    save_tracks tallyC2 envTriv (some "f.ssv") =
      .error "AttributeError: T4Tally object has no attribute E_ws" :=
  ⟨by decide, rfl⟩

/- ## C3: incomplete read -/

/-- C3 counterexample: on a well-formed 2×1×1 tally block carrying three
result rows, `__init__` prints the incomplete-read notification but then
raises from `np.reshape` instead of returning a tally. -/
theorem tallyInit_incomplete_raises :
    tallyInit none c3File "MYTALLY" 1 "" none =
      (["Tally MYTALLY reading incomplete."], .error "ValueError: cannot reshape array") := rfl

/-- C3 amended: when the parsed row count differs from the product of the
cell counts, the condition is reported on the notification channel as an
incomplete read, but construction then fails in the reshape step — a tally
is returned only when the counts agree. -/
theorem finishInit_incomplete_reports_then_raises
    (name : String) (rawI rawErr : List ℚ) (Ns : List ℤ) (vcell : ℚ)
    (h : (rawI.length : ℤ) ≠ Ns.prod) :
    (finishInit name rawI rawErr Ns vcell).1 = ["Tally " ++ name ++ " reading incomplete."] ∧
    (finishInit name rawI rawErr Ns vcell).2 = .error "ValueError: cannot reshape array" := by
  have hr : npReshape rawI Ns = .error "ValueError: cannot reshape array" := by
    rw [npReshape, if_neg]
    rintro ⟨-, hprod⟩
    exact h hprod.symm
  constructor
  · simp [finishInit, h]
  · simp [finishInit, hr]

/-- C3 witness: the amended statement at a concrete mismatched input. -/
theorem finishInit_incomplete_witness :
    (finishInit "T" [1] [1] [2, 1, 1] 1).1 = ["Tally T reading incomplete."] ∧
    (finishInit "T" [1] [1] [2, 1, 1] 1).2 = .error "ValueError: cannot reshape array" :=
  finishInit_incomplete_reports_then_raises "T" [1] [1] [2, 1, 1] 1 (by decide)

/- ## C4: plotting mutates the tally (code bug) -/

/-- C4: a call to `plot` with `cells` given and `J = 2` changes the stored
value and error arrays: the numpy view taken by basic slicing is scaled in
place, so after the call the cell holds 6 where the tally stored 3. -/
theorem plot_mutates_stored_arrays :
    (plotRun 1 1 1 IC4 IC4 0 (some (0, 0)) 2 none).newI 0 0 0 = 6 ∧
    (plotRun 1 1 1 IC4 IC4 0 (some (0, 0)) 2 none).newErr 0 0 0 = 6 ∧
    IC4 0 0 0 = 3 := by
  refine ⟨?_, ?_, rfl⟩ <;>
    norm_num [plotRun, sliceSum, shapeAt, sliceAt, inSliceB, otherPair, coordAt, otherAxes,
      IC4, Finset.sum_range_succ]

/- ## C5: spectrum loader -/

/-- C5 counterexample: the line "100,5" parses field 0 (appending an
energy) but has no field 2, so only the energy sequence grows and
`read_spectrum` raises the length-mismatch error — the FormatError is
reachable and the line neither contributed a full pair nor was skipped
without effect. -/
theorem read_spectrum_formaterror_reachable :
    readSpectrum (some ["100,5"]) = .error "Invalid decay spectrum format." := rfl

/-- C5 amended: each line either leaves both sequences unchanged, or (when
its field 0 parses) appends exactly `field0/1000` to the energies and then
appends at most one intensity — appending the energy alone when field 2 is
missing or non-numeric, which makes the lengths differ and the FormatError
reachable; on any successful return the two sequences have equal length. -/
theorem read_spectrum_line_contribution :
    (∀ Es ws : List ℚ, ∀ l : String, specLineStep (Es, ws) l = (Es, ws) ∨
      ∃ e, pyFloat ((pySplitComma l).getD 0 "") = some e ∧
        (specLineStep (Es, ws) l = (Es ++ [e / 1000], ws) ∨
          ∃ w, specLineStep (Es, ws) l = (Es ++ [e / 1000], ws ++ [w]))) ∧
    (∀ sp : Option (List String), ∀ Es ws : List ℚ,
      readSpectrum sp = .ok (Es, ws) → Es.length = ws.length) := by
  constructor
  · intro Es ws l
    simp only [specLineStep]
    split
    · left; rfl
    · rename_i e heq
      right
      refine ⟨e, heq, ?_⟩
      split
      · left; rfl
      · split
        · left; rfl
        · rename_i w hw
          right; exact ⟨w, rfl⟩
  · intro sp Es ws h
    cases sp with
    | none =>
      simp only [readSpectrum] at h
      cases h
      rfl
    | some lines =>
      simp only [readSpectrum] at h
      split at h
      · cases h
      · split at h
        · cases h
        · rename_i hne
          have h1 : Es = (lines.foldl specLineStep ([], [])).1 := congrArg Prod.fst (Except.ok.inj h).symm
          have h2 : ws = (lines.foldl specLineStep ([], [])).2 := congrArg Prod.snd (Except.ok.inj h).symm
          rw [h1, h2]
          exact not_ne_iff.mp hne

/-- C5 witness: the length equality at a concrete three-field line. -/
theorem read_spectrum_ok_witness :
    ∃ Es ws : List ℚ, readSpectrum (some ["100,0,5"]) = .ok (Es, ws) ∧ Es.length = ws.length :=
  ⟨_, _, rfl, read_spectrum_line_contribution.2 (some ["100,0,5"]) _ _ rfl⟩

/- ## C6: tally-name matching -/

/-- C6 counterexample: with tally name "TALLY", the line "MYTALLY" is
matched by the line-109 condition although its only whitespace token is
"MYTALLY" — the name occurs merely as a proper suffix of a longer token,
which the claim says is not matched. -/
theorem nameMatch_matches_suffix_token :
    nameMatch "TALLY" "MYTALLY" = true ∧ (pySplit "MYTALLY").contains "TALLY" = false :=
  ⟨by decide, by decide⟩

/-- C6 amended: the line-109 search matches a line exactly when the given
name occurs in it immediately followed by a space, a tab, or the end of the
line, regardless of what precedes the occurrence. Hence a standalone token
matches, but so does a longer token having the name as a proper suffix; a
line fails to match exactly when every occurrence of the name extends to
the right with a non-delimiter character (the name as a proper beginning of
a longer token), as in "TALLYX" for name "TALLY". -/
theorem nameMatch_followed_by_delimiter :
    (∀ name line : String, nameMatch name line = true ↔
      ∃ d pre post : String, (d = " " ∨ d = "\t" ∨ d = "\n") ∧
        line ++ "\n" = pre ++ (name ++ d) ++ post) ∧
    (∀ name pre : String, nameMatch name (pre ++ name) = true) ∧
    nameMatch "TALLY" "TALLYX" = false := by
  have hchar : ∀ name line : String, nameMatch name line = true ↔
      ∃ d pre post : String, (d = " " ∨ d = "\t" ∨ d = "\n") ∧
        line ++ "\n" = pre ++ (name ++ d) ++ post := by
    intro name line
    unfold nameMatch lineIn
    rw [Bool.or_eq_true, Bool.or_eq_true, strContains_iff, strContains_iff, strContains_iff]
    constructor
    · rintro ((⟨pre, post, h⟩ | ⟨pre, post, h⟩) | ⟨pre, post, h⟩)
      · exact ⟨" ", pre, post, Or.inl rfl, h⟩
      · exact ⟨"\t", pre, post, Or.inr (Or.inl rfl), h⟩
      · exact ⟨"\n", pre, post, Or.inr (Or.inr rfl), h⟩
    · rintro ⟨d, pre, post, (rfl | rfl | rfl), h⟩
      · exact Or.inl (Or.inl ⟨pre, post, h⟩)
      · exact Or.inl (Or.inr ⟨pre, post, h⟩)
      · exact Or.inr ⟨pre, post, h⟩
  refine ⟨hchar, ?_, by decide⟩
  intro name pre
  rw [hchar]
  refine ⟨"\n", pre, "", Or.inr (Or.inr rfl), ?_⟩
  rw [String.append_assoc]
  exact (String.append_empty (pre ++ (name ++ "\n"))).symm

/-- C6 witness: the characterisation applied at a concrete suffix token. -/
theorem nameMatch_followed_by_delimiter_witness :
    nameMatch "ACT" ("XY" ++ "ACT") = true :=
  nameMatch_followed_by_delimiter.2.1 "ACT" "XY"

/- ## C7: end-of-stream guards -/

/-- C7 counterexample: on a file whose SCORE block never names the tally
and has no END_SCORE, the tally-name search reaches end-of-file without any
error (it returns the final cursor), and the whole parse then surfaces a
token-lookup ValueError from the mesh phase instead of a descriptive
missing-tally error. -/
theorem tallyInit_eof_fallthrough :
    searchTallyDef "T" "SCORE" ["foo"] = .ok ⟨"foo", []⟩ ∧
    tallyInit none c7File "T" 1 "" none =
      ([], .error "ValueError: EXTENDED_MESH is not in list") := ⟨rfl, rfl⟩

/-- C7 amended: only the SCORE-block search (step 1) and the results search
(step 8) fail with descriptive errors when the stream is exhausted; the
tally-name search (step 2), the EXTENDED_MESH search (step 3) and the
Energy-range search (step 9) terminate silently at end-of-file, leaving any
failure to surface later from unrelated code. -/
theorem scan_eof_guards (cur name : String) :
    searchScoreBlock cur [] = .error "No SCORE block in outputfile." ∧
    searchResults name cur [] = .error ("Tally " ++ name ++ " results not found.") ∧
    searchTallyDef name cur [] = .ok ⟨cur, []⟩ ∧
    searchMesh cur [] = .ok ⟨cur, []⟩ ∧
    searchEnergyRange cur [] = ⟨cur, []⟩ :=
  ⟨rfl, rfl, rfl, rfl, rfl⟩

/- ## C8: reshape and density round-trip -/

/-- C8: whenever the parsed row count equals the product of the three cell
counts (and the mesh has nonzero cell volume), the final step of `__init__`
succeeds, the stored value and error arrays have shape `(N1, N2, N3)`, and
the sum of the stored density values times the cell volume equals the sum
of the raw parsed values. -/
theorem finishInit_roundtrip (name : String) (rawI rawErr : List ℚ) (N1 N2 N3 : ℤ) (vcell : ℚ)
    (h1 : 0 ≤ N1) (h2 : 0 ≤ N2) (h3 : 0 ≤ N3)
    (hI : (rawI.length : ℤ) = N1 * N2 * N3) (hE : (rawErr.length : ℤ) = N1 * N2 * N3)
    (hv : vcell ≠ 0) :
    ∃ a b : NdArray,
      (finishInit name rawI rawErr [N1, N2, N3] vcell).2 = .ok (a, b) ∧
      a.shape = [N1.toNat, N2.toNat, N3.toNat] ∧ b.shape = [N1.toNat, N2.toNat, N3.toNat] ∧
      a.data.sum * vcell = rawI.sum ∧ b.data.sum * vcell = rawErr.sum := by
  have hprod : ([N1, N2, N3] : List ℤ).prod = N1 * N2 * N3 := by
    simp [mul_assoc]
  have hall : ∀ d ∈ ([N1, N2, N3] : List ℤ), 0 ≤ d := by
    intro d hd
    simp only [List.mem_cons, List.not_mem_nil, or_false] at hd
    rcases hd with rfl | rfl | rfl <;> assumption
  have hr1 : npReshape rawI [N1, N2, N3] = .ok ⟨[N1.toNat, N2.toNat, N3.toNat], rawI⟩ := by
    rw [npReshape, if_pos ⟨hall, by rw [hprod, ← hI]⟩]
    rfl
  have hr2 : npReshape rawErr [N1, N2, N3] = .ok ⟨[N1.toNat, N2.toNat, N3.toNat], rawErr⟩ := by
    rw [npReshape, if_pos ⟨hall, by rw [hprod, ← hE]⟩]
    rfl
  refine ⟨⟨[N1.toNat, N2.toNat, N3.toNat], rawI.map (fun x => x / vcell)⟩,
          ⟨[N1.toNat, N2.toNat, N3.toNat], rawErr.map (fun x => x / vcell)⟩, ?_, rfl, rfl, ?_, ?_⟩
  · simp only [finishInit, hr1, hr2]
    rfl
  · show (rawI.map (fun x => x / vcell)).sum * vcell = rawI.sum
    rw [listSumMapDiv, div_mul_cancel₀ _ hv]
  · show (rawErr.map (fun x => x / vcell)).sum * vcell = rawErr.sum
    rw [listSumMapDiv, div_mul_cancel₀ _ hv]

/-- C8 witness: the round-trip at two raw rows on a 2×1×1 mesh of cell
volume 3. -/
theorem finishInit_roundtrip_witness :
    ∃ a b : NdArray,
      (finishInit "T" [2, 4] [1, 1] [2, 1, 1] 3).2 = .ok (a, b) ∧
      a.shape = [2, 1, 1] ∧ b.shape = [2, 1, 1] ∧
      a.data.sum * 3 = ([2, 4] : List ℚ).sum ∧ b.data.sum * 3 = ([1, 1] : List ℚ).sum :=
  finishInit_roundtrip "T" [2, 4] [1, 1] 2 1 1 3 (by decide) (by decide) (by decide)
    (by decide) (by decide) (by norm_num)

/- ## C9: error propagation of the averaging branches -/

/-- Bin cells of a 1-D plot along axis 0. -/
theorem binCells1_axis0 (n1 n2 n3 i : ℕ) (hi : i < n1) :
    binCells1 n1 n2 n3 0 i = {i} ×ˢ (Finset.range n2 ×ˢ Finset.range n3) := by
  ext ⟨x, y, z⟩
  simp [binCells1, allCells, coordAt, -Finset.product_singleton, -Finset.singleton_product]
  omega

/-- Bin cells of a 1-D plot along axis 1. -/
theorem binCells1_axis1 (n1 n2 n3 i : ℕ) (hi : i < n2) :
    binCells1 n1 n2 n3 1 i = Finset.range n1 ×ˢ ({i} ×ˢ Finset.range n3) := by
  ext ⟨x, y, z⟩
  simp [binCells1, allCells, coordAt, -Finset.product_singleton, -Finset.singleton_product]
  omega

/-- Bin cells of a 1-D plot along axis 2. -/
theorem binCells1_axis2 (n1 n2 n3 i : ℕ) (hi : i < n3) :
    binCells1 n1 n2 n3 2 i = Finset.range n1 ×ˢ (Finset.range n2 ×ˢ {i}) := by
  ext ⟨x, y, z⟩
  simp [binCells1, allCells, coordAt, -Finset.product_singleton, -Finset.singleton_product]
  omega

/-- Bin cells of a 2-D plot summing out axis 0. -/
theorem binCells2_axis0 (n1 n2 n3 p q : ℕ) (hp : p < n2) (hq : q < n3) :
    binCells2 n1 n2 n3 0 p q = Finset.range n1 ×ˢ ({p} ×ˢ {q}) := by
  ext ⟨x, y, z⟩
  simp [binCells2, allCells, otherPair, coordAt, otherAxes, Prod.ext_iff,
    -Finset.product_singleton, -Finset.singleton_product]
  omega

/-- Bin cells of a 2-D plot summing out axis 1. -/
theorem binCells2_axis1 (n1 n2 n3 p q : ℕ) (hp : p < n1) (hq : q < n3) :
    binCells2 n1 n2 n3 1 p q = {p} ×ˢ (Finset.range n2 ×ˢ {q}) := by
  ext ⟨x, y, z⟩
  simp [binCells2, allCells, otherPair, coordAt, otherAxes, Prod.ext_iff,
    -Finset.product_singleton, -Finset.singleton_product]
  omega

/-- Bin cells of a 2-D plot summing out axis 2. -/
theorem binCells2_axis2 (n1 n2 n3 p q : ℕ) (hp : p < n1) (hq : q < n2) :
    binCells2 n1 n2 n3 2 p q = {p} ×ˢ ({q} ×ˢ Finset.range n3) := by
  ext ⟨x, y, z⟩
  simp [binCells2, allCells, otherPair, coordAt, otherAxes, Prod.ext_iff,
    -Finset.product_singleton, -Finset.singleton_product]
  omega

/-- C9: for every in-range output bin, the error reported by the averaging
branch of `plot` equals the square root of the sum of the squared per-cell
errors over the cells collapsed into that bin, divided by the number of
those cells — and likewise for `plot2D`. -/
theorem plot_error_propagation (n1 n2 n3 : ℕ) (err : ℕ → ℕ → ℕ → ℚ) (axis i p q : ℕ)
    (ha : axis < 3) (hi : i < shapeAt n1 n2 n3 axis)
    (hp : p < shapeAt n1 n2 n3 (otherAxes axis).1)
    (hq : q < shapeAt n1 n2 n3 (otherAxes axis).2) :
    plotErrsAvg n1 n2 n3 err axis i =
      Real.sqrt (∑ c in binCells1 n1 n2 n3 axis i, ((err c.1 c.2.1 c.2.2 : ℝ)) ^ 2) /
        ((binCells1 n1 n2 n3 axis i).card : ℝ) ∧
    plot2DErrsAvg n1 n2 n3 err axis p q =
      Real.sqrt (∑ c in binCells2 n1 n2 n3 axis p q, ((err c.1 c.2.1 c.2.2 : ℝ)) ^ 2) /
        ((binCells2 n1 n2 n3 axis p q).card : ℝ) := by
  interval_cases axis <;> simp [shapeAt, otherAxes] at hi hp hq
  · constructor
    · rw [plotErrsAvg, binCells1_axis0 n1 n2 n3 i hi]
      simp [Finset.sum_product, Finset.card_product, sumAxis2, otherCount, otherAxes, shapeAt]
    · rw [plot2DErrsAvg, binCells2_axis0 n1 n2 n3 p q hp hq]
      simp [Finset.sum_product, Finset.card_product, sumAxis1, shapeAt]
  · constructor
    · rw [plotErrsAvg, binCells1_axis1 n1 n2 n3 i hi]
      simp [Finset.sum_product, Finset.card_product, sumAxis2, otherCount, otherAxes, shapeAt]
    · rw [plot2DErrsAvg, binCells2_axis1 n1 n2 n3 p q hp hq]
      simp [Finset.sum_product, Finset.card_product, sumAxis1, shapeAt]
  · constructor
    · rw [plotErrsAvg, binCells1_axis2 n1 n2 n3 i hi]
      simp [Finset.sum_product, Finset.card_product, sumAxis2, otherCount, otherAxes, shapeAt]
    · rw [plot2DErrsAvg, binCells2_axis2 n1 n2 n3 p q hp hq]
      simp [Finset.sum_product, Finset.card_product, sumAxis1, shapeAt]

/-- C9 witness: the propagation identity at a concrete 1×1×2 array. -/
theorem plot_error_propagation_witness :
    plotErrsAvg 1 1 2 (fun _ _ _ => (3 : ℚ)) 0 0 =
      Real.sqrt (∑ c in binCells1 1 1 2 0 0,
        (((3 : ℚ) : ℝ)) ^ 2) / ((binCells1 1 1 2 0 0).card : ℝ) ∧
    plot2DErrsAvg 1 1 2 (fun _ _ _ => (3 : ℚ)) 0 0 0 =
      Real.sqrt (∑ c in binCells2 1 1 2 0 0 0,
        (((3 : ℚ) : ℝ)) ^ 2) / ((binCells2 1 1 2 0 0 0).card : ℝ) :=
  plot_error_propagation 1 1 2 (fun _ _ _ => (3 : ℚ)) 0 0 0 0 (by decide) (by decide)
    (by decide) (by decide)

/- ## C10: result-row reading -/

/-- C10 counterexample: the row "1 x 2" has three whitespace tokens, yet
the row-reading loop is not total on it — token 1 fails to parse as a
float and the unguarded conversion raises. -/
theorem readRows_valueerror_on_three_tokens :
    (pySplit "1 x 2").length = 3 ∧
    readRows ["1 x 2"] = .error "ValueError: could not convert string to float: x" :=
  ⟨by decide, rfl⟩

/-- C10 amended: a non-empty row with fewer than three tokens raises an
unguarded exception — an IndexError from the out-of-range token access,
unless a non-numeric earlier token raises a ValueError first; and under the
precondition that every non-empty row has tokens at indices 1 and 2 that
parse as floats, the loop is total and each row read contributes exactly
the parsed tokens 1 and 2 as (value, error). -/
theorem readRows_token_access :
    (∀ l ls, pySplit l ≠ [] → (pySplit l).length < 3 →
      ∃ m, readRows (l :: ls) = .error m ∧
        (m = "IndexError: list index out of range" ∨
          ∃ s, m = "ValueError: could not convert string to float: " ++ s)) ∧
    (∀ rows : List String, (∀ l ∈ rows, pySplit l = [] ∨
        ((∃ s v, (pySplit l).get? 1 = some s ∧ pyFloat s = some v) ∧
          (∃ s w, (pySplit l).get? 2 = some s ∧ pyFloat s = some w))) →
      ∃ p, readRows rows = .ok p) ∧
    (∀ l ls I err s1 s2 v w, (pySplit l).get? 1 = some s1 → (pySplit l).get? 2 = some s2 →
      pyFloat s1 = some v → pyFloat s2 = some w → readRows ls = .ok (I, err) →
      readRows (l :: ls) = .ok (v :: I, w :: err)) := by
  have hstep : ∀ l ls I err s1 s2 v w,
      (pySplit l).get? 1 = some s1 → (pySplit l).get? 2 = some s2 →
      pyFloat s1 = some v → pyFloat s2 = some w → readRows ls = .ok (I, err) →
      readRows (l :: ls) = .ok (v :: I, w :: err) := by
    intro l ls I err s1 s2 v w h1 h2 hv hw hrest
    have hne : (pySplit l).length ≠ 0 := by
      intro h0
      rw [List.length_eq_zero] at h0
      rw [h0] at h1
      cases h1
    simp only [readRows, hne, if_false, h1, h2, pyDoubleAt, hv, hw, hrest]
  refine ⟨?_, ?_, hstep⟩
  · intro l ls hne hlen
    match htoks : pySplit l with
    | [] => exact absurd htoks hne
    | [a] =>
      refine ⟨"IndexError: list index out of range", ?_, Or.inl rfl⟩
      simp [readRows, htoks, pyDoubleAt]
    | [a, b] =>
      rcases hb : pyFloat b with _ | v
      · refine ⟨"ValueError: could not convert string to float: " ++ b, ?_, Or.inr ⟨b, rfl⟩⟩
        simp [readRows, htoks, pyDoubleAt, hb]
      · refine ⟨"IndexError: list index out of range", ?_, Or.inl rfl⟩
        simp [readRows, htoks, pyDoubleAt, hb]
    | a :: b :: c :: ds =>
      rw [htoks] at hlen
      simp at hlen
      omega
  · intro rows hpre
    induction rows with
    | nil => exact ⟨([], []), rfl⟩
    | cons l ls ih =>
      rcases hpre l (List.mem_cons_self l ls) with hblank | ⟨⟨s1, v, h1, hv⟩, ⟨s2, w, h2, hw⟩⟩
      · refine ⟨([], []), ?_⟩
        have h0 : (pySplit l).length = 0 := by rw [hblank]; rfl
        simp [readRows, h0]
      · obtain ⟨⟨I, err⟩, hp⟩ := ih (fun x hx => hpre x (List.mem_cons_of_mem l hx))
        exact ⟨(v :: I, w :: err), hstep l ls I err s1 s2 v w h1 h2 hv hw hp⟩

/-- C10 witness: totality at a concrete one-row list whose tokens parse. -/
theorem readRows_total_witness : ∃ p, readRows ["7 8 9"] = .ok p :=
  readRows_token_access.2.1 ["7 8 9"] (by
    intro l hl
    simp only [List.mem_singleton] at hl
    subst hl
    right
    exact ⟨⟨"8", _, by decide, rfl⟩, ⟨"9", _, by decide, rfl⟩⟩)
